import Mathlib

/-!
Verification development for the ACE pattern memory and curation engine.

The Python sources are shallowly embedded: SQLite tables become lists of
records, float arithmetic becomes exact rational arithmetic over `ℚ`,
Python strings become Lean `String`, and every fallible external step
(stdin parsing, file reads, subprocess calls, agent invocations) becomes
an explicit `Except` value supplied as input.  All definitions are
executable so that concrete scenarios can be evaluated by `decide` / `rfl`.
-/

/-! ## Python string helpers

Small executable models of the Python string primitives the scripts use,
restricted to ASCII (the repository only manipulates ASCII identifiers,
markdown bullets and ISO timestamps).
-/

/-- ASCII whitespace as recognised by Python `str.split()` / `str.strip()`
and by the regex class used in the scripts. -/
def pySpace (c : Char) : Bool :=
  c == ' ' || c == '\t' || c == '\n' || c == '\r' || c == '\x0b' || c == '\x0c'

/-- Recursion core of `pySplit`: accumulate the current token in reverse. -/
def pySplitGo : List Char → List Char → List String
  | [], acc => if acc.isEmpty then [] else [⟨acc.reverse⟩]
  | c :: cs, acc =>
      if pySpace c then
        if acc.isEmpty then pySplitGo cs [] else ⟨acc.reverse⟩ :: pySplitGo cs []
      else pySplitGo cs (c :: acc)

/-- Model of Python `s.split()`: split on whitespace runs, dropping empty
tokens. -/
def pySplit (s : String) : List String :=
  pySplitGo s.toList []

/-- Model of Python `s.lower()` (ASCII). -/
def strToLower (s : String) : String :=
  ⟨s.toList.map Char.toLower⟩

/-- Model of Python `s.strip()`: drop leading and trailing whitespace. -/
def pyStrip (s : String) : String :=
  ⟨((s.toList.dropWhile (fun c => pySpace c)).reverse.dropWhile
      (fun c => pySpace c)).reverse⟩

/-- Boolean list-prefix test (kernel-reducible). -/
def listIsPre : List Char → List Char → Bool
  | [], _ => true
  | _ :: _, [] => false
  | a :: as, b :: bs => a == b && listIsPre as bs

/-- Boolean list-infix test (kernel-reducible). -/
def listInfixB : List Char → List Char → Bool
  | needle, [] => needle.isEmpty
  | needle, c :: rest => listIsPre needle (c :: rest) || listInfixB needle rest

/-- Model of the Python substring test `needle in hay`. -/
def strContains (hay needle : String) : Bool :=
  listInfixB needle.toList hay.toList

/-- Latest of two ISO-8601 timestamps rendered as strings (lexicographic
comparison agrees with chronological order for this format).  Used to state
the specification phrase "lastSeen = most recent". -/
def latestOf (a b : String) : String :=
  if compare a b = Ordering.lt then b else a

/-! ## Data model: pattern rows

One row of the `patterns` table created by
`plugins/ace-orchestration/scripts/ace-cycle.py` (`init_database`).
Counters are `Nat`; `confidence` (a SQLite REAL) is modelled by `ℚ`.
-/

structure Pattern where
  id : String
  bullet_id : String
  name : String
  domain : String
  type : String
  description : String
  language : String
  observations : Nat
  successes : Nat
  failures : Nat
  neutrals : Nat
  helpful_count : Nat
  harmful_count : Nat
  confidence : ℚ
  last_seen : String
  created_at : String
deriving Repr, DecidableEq

/-! ## Confidence formulas -/

/-- The canonical confidence invariant as written in the specification:
`confidence = (successes + helpfulFeedback) /
 max(observations + helpfulFeedback + harmfulFeedback, 1)`. -/
def spec_confidence (p : Pattern) : ℚ :=
  ((p.successes : ℚ) + (p.helpful_count : ℚ)) /
    ((max (p.observations + p.helpful_count + p.harmful_count) 1 : Nat) : ℚ)

/-- Confidence as recomputed by the cycle orchestrator after a merge or a
create (`ace-cycle.py`, `main`): `successes / max(observations, 1)`.  The
feedback counters do not appear. -/
def cycle_confidence (successes observations : Nat) : ℚ :=
  (successes : ℚ) / ((max observations 1 : Nat) : ℚ)

/-- Model of `recalculate_confidence_scores` in
`collect-pattern-feedback.py`: every row gets
`(successes + helpful_count) / max(observations + helpful_count + harmful_count, 1)`. -/
def recalculate_confidence_scores (db : List Pattern) : List Pattern :=
  db.map (fun p =>
    { p with confidence :=
        ((p.successes : ℚ) + (p.helpful_count : ℚ)) /
          ((max (p.observations + p.helpful_count + p.harmful_count) 1 : Nat) : ℚ) })

/-! ## Merge -/

/-- Model of `merge_patterns` in `ace-cycle.py`: counts are summed
component-wise into the target, `last_seen` is taken from the source
(`source.get` of `last_seen`), every other field keeps the target value. -/
def merge_patterns (target source : Pattern) : Pattern :=
  { target with
    observations := target.observations + source.observations
    successes := target.successes + source.successes
    failures := target.failures + source.failures
    neutrals := target.neutrals + source.neutrals
    last_seen := source.last_seen }

/-- The merge branch of `main` in `ace-cycle.py`: merge, then store with
`confidence = merged.successes / max(merged.observations, 1)`. -/
def cycleMergeStore (target source : Pattern) : Pattern :=
  let merged := merge_patterns target source
  { merged with confidence := cycle_confidence merged.successes merged.observations }

/-- The create branch of `main` in `ace-cycle.py`: the new record is stored
with `confidence = successes / max(observations, 1)` and a fresh
`created_at`. -/
def cycleCreateStore (now : String) (p : Pattern) : Pattern :=
  { p with confidence := cycle_confidence p.successes p.observations, created_at := now }

/-! ## Similarity engine

`calculate_similarity` in `plugins/.../ace-cycle.py` first tries the
semantic engine import (`from embeddings_engine import
SemanticSimilarityEngine`); any exception in that tier falls through to an
emergency Jaccard fallback computed inline.  The outcome of the higher
tier is modelled as an `Option ℚ` input: `none` means the tier raised.
-/

/-- Jaccard similarity over lower-cased whitespace token sets, as in the
inner `jaccard` helper of `calculate_similarity`: empty token sets give 0. -/
def jaccard (s1 s2 : String) : ℚ :=
  let w1 : Finset String := (pySplit s1).toFinset
  let w2 : Finset String := (pySplit s2).toFinset
  if w1 = ∅ ∨ w2 = ∅ then 0
  else ((w1 ∩ w2).card : ℚ) / ((w1 ∪ w2).card : ℚ)

/-- The guaranteed fallback tier of `calculate_similarity`: name similarity
weighted 60 percent, description similarity weighted 40 percent. -/
def jaccard_fallback (p1 p2 : Pattern) : ℚ :=
  let name_sim := jaccard (strToLower p1.name) (strToLower p2.name)
  let desc_sim := jaccard (strToLower p1.description) (strToLower p2.description)
  name_sim * (6 / 10) + desc_sim * (4 / 10)

/-- Model of `calculate_similarity`: if the semantic-engine tier produced a
score it is returned, otherwise (the tier raised) the Jaccard fallback runs.
The function is total by construction: the fallback never raises. -/
def calculate_similarity (engineTier : Option ℚ) (p1 p2 : Pattern) : ℚ :=
  match engineTier with
  | some s => s
  | none => jaccard_fallback p1 p2

/-! ## Curator -/

/-- Outcome of the `curate` decision. -/
inductive Decision where
  | merge (target_id : String) (similarity : ℚ)
  | prune
  | create
deriving Repr, DecidableEq

/-- The candidate scan of `curate`: running best match and best similarity,
starting from `(None, 0.0)`, skipping candidates of a different domain or
type, updating on strictly larger similarity. -/
def bestCandidate (sim : Pattern → Pattern → ℚ) (n : Pattern)
    (existing : List Pattern) : Option Pattern × ℚ :=
  existing.foldl
    (fun acc e =>
      if e.domain ≠ n.domain then acc
      else if e.type ≠ n.type then acc
      else
        let s := sim n e
        if acc.2 < s then (some e, s) else acc)
    (none, 0)

/-- Model of `curate` in `ace-cycle.py`.  Note that the observation floor
and confidence threshold of the prune branch are read from `new_pattern`
(the ephemeral single-observation record), not from any stored aggregate
row. -/
def curate (sim : Pattern → Pattern → ℚ) (n : Pattern)
    (existing : List Pattern) : Decision :=
  let best := bestCandidate sim n existing
  if best.1.isSome ∧ 85 / 100 ≤ best.2 then
    Decision.merge ((best.1.getD n).id) best.2
  else if 10 ≤ n.observations ∧ n.confidence < 30 / 100 then
    Decision.prune
  else
    Decision.create

/-- Model of `prune_low_confidence` in `ace-session-end.py`: rows with
`observations >= 10 AND confidence < 0.30` are deleted (together with their
insights and observations); the function returns the surviving rows. -/
def prune_low_confidence (db : List Pattern) : List Pattern :=
  db.filter (fun p => ¬ (10 ≤ p.observations ∧ p.confidence < 30 / 100))

/-! ## Bullet id generation and upsert -/

/-- Zero-padded decimal rendering, Python `f"{n:05d}"`. -/
def pad5 (n : Nat) : String :=
  let s := toString n
  if s.length < 5 then String.mk (List.replicate (5 - s.length) '0') ++ s else s

/-- Prefix derivation of `generate_bullet_id`:
`pattern_id.split('-')[0] if '-' in pattern_id else domain[:3]`.  The first
element of `split('-')` is the run of characters before the first hyphen. -/
def bulletPfx (domain pattern_id : String) : String :=
  if strContains pattern_id "-" then ⟨pattern_id.toList.takeWhile (fun c => c ≠ '-')⟩
  else ⟨domain.toList.take 3⟩

/-- SQLite `domain LIKE pfx%`: ASCII case-insensitive test that `domain`
starts with the given text. -/
def likeStartsWith (pfx domain : String) : Bool :=
  listIsPre (strToLower pfx).toList (strToLower domain).toList

/-- Model of `generate_bullet_id` in `plugins/.../ace-cycle.py`: the number
is `COUNT(*) FROM patterns WHERE domain LIKE pfx%` plus one, zero-padded
to five digits.  There is no hash and no collision probe. -/
def generate_bullet_id (db : List Pattern) (domain pattern_id : String) : String :=
  let pfx := bulletPfx domain pattern_id
  let count := (db.filter (fun p => likeStartsWith pfx p.domain)).length
  "[" ++ pfx ++ "-" ++ pad5 (count + 1) ++ "]"

/-- The incoming dictionary handed to `store_pattern`: it carries no
`bullet_id`; `helpful_count`, `harmful_count` and `created_at` are read
with `.get` defaults. -/
structure IncomingPattern where
  id : String
  name : String
  domain : String
  type : String
  description : String
  language : String
  observations : Nat
  successes : Nat
  failures : Nat
  neutrals : Nat
  helpful_count : Option Nat
  harmful_count : Option Nat
  confidence : ℚ
  last_seen : String
  created_at : Option String
deriving Repr, DecidableEq

/-- The UPDATE branch of `store_pattern` applied to one row: every listed
column is overwritten; `bullet_id` and `created_at` are not in the SET
list and keep their stored values. -/
def storeUpdateRow (p : IncomingPattern) (row : Pattern) : Pattern :=
  { row with
    name := p.name
    domain := p.domain
    type := p.type
    description := p.description
    language := p.language
    observations := p.observations
    successes := p.successes
    failures := p.failures
    neutrals := p.neutrals
    helpful_count := p.helpful_count.getD 0
    harmful_count := p.harmful_count.getD 0
    confidence := p.confidence
    last_seen := p.last_seen }

/-- The INSERT branch of `store_pattern`: a fresh `bullet_id` is generated
against the current table and `created_at` defaults to now. -/
def storeInsertRow (db : List Pattern) (now : String) (p : IncomingPattern) : Pattern :=
  { id := p.id
    bullet_id := generate_bullet_id db p.domain p.id
    name := p.name
    domain := p.domain
    type := p.type
    description := p.description
    language := p.language
    observations := p.observations
    successes := p.successes
    failures := p.failures
    neutrals := p.neutrals
    helpful_count := p.helpful_count.getD 0
    harmful_count := p.harmful_count.getD 0
    confidence := p.confidence
    last_seen := p.last_seen
    created_at := p.created_at.getD now }

/-- Model of `store_pattern` in `ace-cycle.py`: if a row with the incoming
id exists, run the UPDATE on every matching row; otherwise append a fresh
row with a generated `bullet_id`. -/
def store_pattern (db : List Pattern) (now : String) (p : IncomingPattern) : List Pattern :=
  if (db.find? (fun row => row.id = p.id)).isSome then
    db.map (fun row => if row.id = p.id then storeUpdateRow p row else row)
  else
    db ++ [storeInsertRow db now p]

/-! ## Document synchronizer (`playbook-delta-updater.py`)

The document is modelled as its list of lines (Python splits on newline;
no line contains a newline).  The three regexes of the script are modelled
exactly, including the defect in the addition path: the section pattern is
built with an f-string, so the intended repetition `{2,3}` is interpolated
as the tuple `(2, 3)` and the compiled regex is `^#(2, 3)\s+<title>`, which
requires the literal text `#2, 3` at the start of the line.
-/

/-- Model of `re.match` with pattern `^(#\x7b2,3\x7d)\s+(.+?)$`, returning the
stripped group 2 on success: two or three leading hash marks, at least one
whitespace character, then at least one further character. -/
def headingTitle (line : String) : Option String :=
  let cs := line.toList
  let h := (cs.takeWhile (fun c => c = '#')).length
  if h = 2 ∨ h = 3 then
    let rest := cs.drop h
    if 2 ≤ rest.length ∧ pySpace (rest.headD '#') then
      let w := (rest.takeWhile (fun c => pySpace c)).length
      some (pyStrip ⟨rest.drop (min w (rest.length - 1))⟩)
    else none
  else none

/-- Model of `re.match` with pattern `^#\x7b2,3\x7d\s+` used to find the end of a
section in `apply_delta`: two or three leading hash marks followed by at
least one whitespace character. -/
def isHeadingStart (line : String) : Bool :=
  let cs := line.toList
  let h := (cs.takeWhile (fun c => c = '#')).length
  (h = 2 || h = 3) && pySpace ((cs.drop h).headD '#')

/-- Python `\w` character class (ASCII). -/
def isWordChar (c : Char) : Bool := c.isAlphanum || c = '_'

/-- Model of `re.match` with pattern `\[(\w+-\d+)\]\s+(.+)` restricted to group
1 (the only group the callers use): an opening bracket, one or more word
characters, a hyphen, one or more digits, a closing bracket, then at least
one whitespace character and at least one further character. -/
def extractBulletId (s : String) : Option String :=
  match s.toList with
  | '[' :: rest =>
    let w := rest.takeWhile isWordChar
    (match rest.drop w.length with
     | '-' :: r2 =>
       let d := r2.takeWhile Char.isDigit
       (match r2.drop d.length with
        | ']' :: r4 =>
          if w ≠ [] ∧ d ≠ [] ∧ pySpace (r4.headD '#') ∧ 2 ≤ r4.length then
            some ⟨w ++ '-' :: d⟩
          else none
        | _ => none)
     | _ => none)
  | _ => none

/-- Insertion-ordered dictionary update: replace in place if the key is
present, append otherwise (Python dict assignment). -/
def dictInsert {α : Type} (k : String) (v : α) : List (String × α) → List (String × α)
  | [] => [(k, v)]
  | (k0, v0) :: rest =>
      if k0 = k then (k, v) :: rest else (k0, v0) :: dictInsert k v rest

/-- Dictionary lookup (`d.get(k)`). -/
def dictGet {α : Type} (d : List (String × α)) (k : String) : Option α :=
  (d.find? (fun e => e.1 = k)).map (fun e => e.2)

/-- Recursion core of `parse_existing_playbook`: lines before the first
heading are discarded; each heading flushes the previous section (when one
is open) and always resets the accumulated content. -/
def parsePlaybookGo : List String → Option String → List String →
    List (String × List String) → List (String × List String)
  | [], cur, content, acc =>
      match cur with
      | some t => dictInsert t content.reverse acc
      | none => acc
  | l :: ls, cur, content, acc =>
      match headingTitle l with
      | some t =>
          match cur with
          | some t0 => parsePlaybookGo ls (some t) [] (dictInsert t0 content.reverse acc)
          | none => parsePlaybookGo ls (some t) [] acc
      | none => parsePlaybookGo ls cur (l :: content) acc

/-- Model of `parse_existing_playbook`: the existing document as an
insertion-ordered map from section title to the list of content lines of
that section. -/
def parse_existing_playbook (docLines : List String) : List (String × List String) :=
  parsePlaybookGo docLines none [] []

/-- Recursion core of the desired-content parse inside `compute_delta`.
Faithful to the source: the bullet accumulator is reset only when it is
flushed into a section, so bullets that appear before the first heading
leak into the first section that has a heading, and sections are recorded
only when they have at least one bullet. -/
def computeNewSectionsGo : List String → Option String → List (String × String) →
    List (String × List (String × String)) → List (String × List (String × String))
  | [], cur, bullets, acc =>
      (match cur with
       | some t => if bullets ≠ [] then dictInsert t bullets acc else acc
       | none => acc)
  | l :: ls, cur, bullets, acc =>
      match headingTitle l with
      | some t =>
          (match cur with
           | some t0 =>
               if bullets ≠ [] then
                 computeNewSectionsGo ls (some t) [] (dictInsert t0 bullets acc)
               else computeNewSectionsGo ls (some t) bullets acc
           | none => computeNewSectionsGo ls (some t) bullets acc)
      | none =>
          match extractBulletId (pyStrip l) with
          | some bid => computeNewSectionsGo ls cur (dictInsert bid l bullets) acc
          | none => computeNewSectionsGo ls cur bullets acc

/-- Sections of the desired rendered content, as parsed inside
`compute_delta`: title to insertion-ordered map from bullet id to raw line. -/
def computeNewSections (newContent : List String) : List (String × List (String × String)) :=
  computeNewSectionsGo newContent none [] []

/-- Bullet map of an existing section: `compute_delta` re-scans the stored
content lines for bullet ids. -/
def oldBulletsOf (content : List String) : List (String × String) :=
  content.foldl
    (fun acc l =>
      match extractBulletId (pyStrip l) with
      | some bid => dictInsert bid l acc
      | none => acc) []

/-- One addition of a `PlaybookDelta`. -/
structure DeltaAdd where
  sectionTitle : String
  bullet_id : String
  new_line : String
deriving Repr, DecidableEq

/-- One update of a `PlaybookDelta`. -/
structure DeltaUpd where
  sectionTitle : String
  bullet_id : String
  old_line : String
  new_line : String
deriving Repr, DecidableEq

/-- One deletion of a `PlaybookDelta`. -/
structure DeltaDel where
  sectionTitle : String
  bullet_id : String
deriving Repr, DecidableEq

/-- The delta computed by `compute_delta`. -/
structure PlaybookDelta where
  additions : List DeltaAdd
  updates : List DeltaUpd
  deletions : List DeltaDel
deriving Repr, DecidableEq

/-- Model of `compute_delta`: per desired section, bullets absent from the
existing section are additions, bullets present with a different raw line
are updates, and existing bullets absent from the desired section are
deletions; an entirely new section contributes only additions. -/
def compute_delta (old_sections : List (String × List String))
    (newContent : List String) : PlaybookDelta :=
  (computeNewSections newContent).foldl
    (fun delta sec =>
      let title := sec.1
      let newBullets := sec.2
      match dictGet old_sections title with
      | none =>
          { delta with additions :=
              delta.additions ++ newBullets.map (fun b => ⟨title, b.1, b.2⟩) }
      | some content =>
          let oldB := oldBulletsOf content
          let d1 := newBullets.foldl
            (fun d b =>
              match dictGet oldB b.1 with
              | none => { d with additions := d.additions ++ [⟨title, b.1, b.2⟩] }
              | some ol =>
                  if ol ≠ b.2 then
                    { d with updates := d.updates ++ [⟨title, b.1, ol, b.2⟩] }
                  else d) delta
          oldB.foldl
            (fun d b =>
              if (dictGet newBullets b.1).isSome then d
              else { d with deletions := d.deletions ++ [⟨title, b.1⟩] }) d1)
    ⟨[], [], []⟩

/-- One update step of `apply_delta`: find the first line containing both
the bullet id and the stripped old line as substrings, and replace every
occurrence of the stripped old line in it by the stripped new line. -/
def applyOneUpdate (u : DeltaUpd) : List String → List String × Bool
  | [] => ([], false)
  | l :: ls =>
      if strContains l u.bullet_id && strContains l (pyStrip u.old_line) then
        (l.replace (pyStrip u.old_line) (pyStrip u.new_line) :: ls, true)
      else
        let r := applyOneUpdate u ls
        (l :: r.1, r.2)

/-- One deletion step of `apply_delta`: remove every line containing the
bullet id as a substring. -/
def applyOneDeletion (d : DeltaDel) (lines : List String) : List String × Bool :=
  (lines.filter (fun l => ¬ strContains l d.bullet_id),
   lines.any (fun l => strContains l d.bullet_id))

/-- Model of the f-string defect in the addition path of `apply_delta`:
the compiled pattern is `^#(2, 3)\s+<escaped title>`, i.e. the literal
text `#2, 3`, then one or more whitespace characters, then the title. -/
def buggySectionMatch (title line : String) : Bool :=
  let cs := line.toList
  if cs.take 5 = ['#', '2', ',', ' ', '3'] then
    let rest := cs.drop 5
    let w := (rest.takeWhile (fun c => pySpace c)).length
    (List.range (w + 1)).any
      (fun k => decide (1 ≤ k) && listIsPre title.toList (rest.drop k))
  else false

/-- End-of-section scan of `apply_delta`: the first heading line after the
section heading, else the end of the file. -/
def sectionEndIdx (lines : List String) (s : Nat) : Nat :=
  match (lines.drop (s + 1)).findIdx? isHeadingStart with
  | some j => s + 1 + j
  | none => lines.length

/-- Python `list.insert(n, a)` for `n ≤ len`. -/
def pyInsertAt {α : Type} (n : Nat) (a : α) (l : List α) : List α :=
  l.take n ++ a :: l.drop n

/-- One addition step of `apply_delta`: locate the section heading with
the (defective) pattern; if found, insert the new line just before the
next heading or at the end of the file; otherwise do nothing. -/
def applyOneAddition (a : DeltaAdd) (lines : List String) : List String × Bool :=
  match lines.findIdx? (fun l => buggySectionMatch a.sectionTitle l) with
  | none => (lines, false)
  | some s => (pyInsertAt (sectionEndIdx lines s) a.new_line lines, true)

/-- Model of `apply_delta`: updates, then deletions, then additions, with
the change flag accumulated across all steps. -/
def apply_delta (delta : PlaybookDelta) (lines : List String) : List String × Bool :=
  let r1 := delta.updates.foldl
    (fun (acc : List String × Bool) u =>
      let r := applyOneUpdate u acc.1
      (r.1, acc.2 || r.2)) (lines, false)
  let r2 := delta.deletions.foldl
    (fun (acc : List String × Bool) d =>
      let r := applyOneDeletion d acc.1
      (r.1, acc.2 || r.2)) r1
  delta.additions.foldl
    (fun (acc : List String × Bool) a =>
      let r := applyOneAddition a acc.1
      (r.1, acc.2 || r.2)) r2

/-- Model of `update_playbook_with_delta`, returning the resulting document
lines and the number of writes performed: an empty parse of the existing
document triggers the one permitted full write; an empty delta writes
nothing; otherwise the delta is applied and written only when some step
actually changed a line. -/
def update_playbook_with_delta (docLines newContent : List String) : List String × Nat :=
  let old_sections := parse_existing_playbook docLines
  if old_sections = [] then (newContent, 1)
  else
    let delta := compute_delta old_sections newContent
    if delta.additions.length + delta.updates.length + delta.deletions.length = 0 then
      (docLines, 0)
    else
      let r := apply_delta delta docLines
      if r.2 then (r.1, 1) else (docLines, 0)

/-! ## Epoch manager (`epoch-manager.py`) -/

/-- Status column of the `epochs` table. -/
inductive EpochStatus where
  | running
  | completed
deriving Repr, DecidableEq

/-- One row of the `epochs` table. -/
structure EpochRow where
  epoch_number : Nat
  status : EpochStatus
  started_at : String
  completed_at : Option String
deriving Repr, DecidableEq

/-- Maximum epoch number present (`SELECT MAX(epoch_number)`, with the
`(max_epoch or 0)` coalescing of the source). -/
def maxEpochNumber (epochs : List EpochRow) : Nat :=
  (epochs.map (fun e => e.epoch_number)).foldl max 0

/-- The force-completion UPDATE of `start_epoch` as executed inside the
transaction. -/
def completeRunning (now : String) (epochs : List EpochRow) : List EpochRow :=
  epochs.map (fun e =>
    if e.status = EpochStatus.running then
      { e with status := EpochStatus.completed, completed_at := some now }
    else e)

/-- Model of `start_epoch`.  The sqlite3 connection commits only on the
success path; in the over-cap branch the connection is closed without
`commit()`, so the force-completion UPDATE is rolled back and the stored
table is unchanged.  Returns the resulting table, the returned epoch
number, and whether the cap warning was logged. -/
def start_epoch (now : String) (epochs : List EpochRow) :
    List EpochRow × Nat × Bool :=
  let pending := completeRunning now epochs
  let nextEpoch := maxEpochNumber epochs + 1
  if 5 < nextEpoch then
    (epochs, maxEpochNumber epochs, true)
  else
    (pending ++ [⟨nextEpoch, EpochStatus.running, now, none⟩], nextEpoch, false)

/-! ## Cycle orchestrator boundary (`ace-cycle.py`, `main`)

The body of `main` runs inside one `try` whose `except Exception` handler
prints the JSON continue signal and exits 0.  Steps whose behaviour lives
outside this subsystem (stdin JSON parsing, the file read, evidence
gathering, reflection, the per-pattern persistence loop, the playbook
subprocess) are supplied by a `CycleWorld` as `Except` values so that the
theorem quantifies over every possible internal failure.  The deliberate
early `sys.exit(0)` calls raise `SystemExit`, which `except Exception`
does not intercept; they are modelled as normal results with exit code 0.
-/

/-- Hook input extracted from stdin (`tool_input.file_path`). -/
structure HookInput where
  file_path : String
deriving Repr, DecidableEq

/-- Result of a finished process: the stdout lines and the exit status. -/
structure MainResult where
  stdout : List String
  exitCode : Nat
deriving Repr, DecidableEq

/-- The success signal printed on stdout. -/
def continueSignal : String := "\x7b\"continue\": true\x7d"

/-- External steps of one cycle; an `Except.error` means the step raised. -/
structure CycleWorld where
  stdinJson : Except String HookInput
  extSupported : Bool
  initDatabase : Except String Unit
  readFile : Except String String
  detected : Except String (List Pattern)
  gatherEvidence : Except String Unit
  reflect : Except String Unit
  curateAndPersist : Except String Nat
  updatePlaybook : Except String Unit

/-- The `try` body of `main`: each step either returns or raises; the file
read has its own inner `try` that converts a failure into `sys.exit(0)`,
and the final path prints the continue signal and exits 0. -/
def runBody (w : CycleWorld) : Except String MainResult :=
  match w.stdinJson with
  | Except.error e => Except.error e
  | Except.ok inp =>
    if inp.file_path = "" then Except.ok ⟨[], 0⟩
    else if ¬ w.extSupported then Except.ok ⟨[], 0⟩
    else match w.initDatabase with
    | Except.error e => Except.error e
    | Except.ok _ =>
      match w.readFile with
      | Except.error _ => Except.ok ⟨[], 0⟩
      | Except.ok _ =>
        match w.detected with
        | Except.error e => Except.error e
        | Except.ok det =>
          if det.isEmpty then Except.ok ⟨[], 0⟩
          else match w.gatherEvidence with
          | Except.error e => Except.error e
          | Except.ok _ =>
            match w.reflect with
            | Except.error e => Except.error e
            | Except.ok _ =>
              match w.curateAndPersist with
              | Except.error e => Except.error e
              | Except.ok processed =>
                match (if 0 < processed then w.updatePlaybook else Except.ok ()) with
                | Except.error e => Except.error e
                | Except.ok _ => Except.ok ⟨[continueSignal], 0⟩

/-- Model of `main`: the boundary handler converts any exception escaping
the body into the continue signal and exit status 0. -/
def pymain (w : CycleWorld) : MainResult :=
  match runBody w with
  | Except.ok r => r
  | Except.error _ => ⟨[continueSignal], 0⟩

/-! ## Frame predicate for delta application -/

/-- A line is untouched by a delta when it contains no deleted bullet id
as a substring and, for every update, does not contain both the update
bullet id and the stripped old line as substrings. -/
def untouchedLine (delta : PlaybookDelta) (l : String) : Bool :=
  delta.deletions.all (fun d => ¬ strContains l d.bullet_id) &&
  delta.updates.all (fun u =>
    ¬ (strContains l u.bullet_id && strContains l (pyStrip u.old_line)))

/-- The merge branch condition of `curate`: a best match was found and its
similarity reached the 0.85 threshold. -/
def mergeFired (sim : Pattern → Pattern → ℚ) (n : Pattern)
    (existing : List Pattern) : Prop :=
  (bestCandidate sim n existing).1.isSome = true ∧
    85 / 100 ≤ (bestCandidate sim n existing).2

/-! ## Concrete scenario fixtures used by witnesses and counterexamples -/

/-- A stored aggregate row carrying one unit of helpful feedback. -/
def fbTarget : Pattern :=
  { id := "py-004", bullet_id := "[py-00001]",
    name := "Use context managers for file operations", domain := "python-io",
    type := "helpful",
    description := "with statement ensures files are properly closed",
    language := "python",
    observations := 1, successes := 0, failures := 0, neutrals := 1,
    helpful_count := 1, harmful_count := 0, confidence := 1 / 2,
    last_seen := "2025-01-02T00:00:00", created_at := "2025-01-01T00:00:00" }

/-- The matching ephemeral new-observation record (one success), with a
`last_seen` older than the target one. -/
def fbSource : Pattern :=
  { fbTarget with
    observations := 1, successes := 1, failures := 0, neutrals := 0,
    helpful_count := 0, confidence := 0,
    last_seen := "2025-01-01T12:00:00", created_at := "" }

/-- The same target with the feedback counters cleared. -/
def fbNoFb : Pattern := { fbTarget with helpful_count := 0 }

/-- Stored aggregate row for the curator scenario: same id, domain and
type as the incoming record, 10 observations, confidence 0.20. -/
def cxExisting : Pattern :=
  { id := "py-003", bullet_id := "[py-00001]", name := "alpha",
    domain := "python-error-handling", type := "harmful",
    description := "old text", language := "python",
    observations := 10, successes := 2, failures := 8, neutrals := 0,
    helpful_count := 0, harmful_count := 0, confidence := 2 / 10,
    last_seen := "2025-01-01T00:00:00", created_at := "2025-01-01T00:00:00" }

/-- The ephemeral new-observation record for the same pattern id, with
name and description sharing no token with the stored row. -/
def cxNew : Pattern :=
  { cxExisting with
    name := "beta gamma", description := "fresh words",
    observations := 1, successes := 0, failures := 1,
    confidence := 0, last_seen := "2025-01-02T00:00:00" }

/-- Document for the deletion frame scenario: a user preface line that
mentions a bullet id, then a managed section with two bullets. -/
def frameDoc : List String :=
  ["intro mentions [py-00001] ref", "## S", "[py-00001] x", "[py-00002] y"]

/-- Desired rendered content for the deletion frame scenario: the bullet
`py-00001` has been removed from the store. -/
def frameWant : List String :=
  ["## S", "[py-00002] y"]

/-- Document for the idempotence scenario: one managed section with one
bullet. -/
def idemDoc : List String := ["## Rules", "[py-00001] a"]

/-- Desired rendered content for the idempotence scenario: the same
section now renders a second bullet. -/
def idemWant : List String := ["## Rules", "[py-00001] a", "[py-00002] b"]

/-- A stored pattern whose domain does not begin with its bullet prefix. -/
def storedP1 : Pattern :=
  { cxExisting with
    id := "py-001", bullet_id := "[py-00001]", domain := "javascript-x" }

/-- Epoch table after epochs 1..5 have been started sequentially: 1..4
completed, 5 still running. -/
def eps5 : List EpochRow :=
  [⟨1, EpochStatus.completed, "t1", some "t2"⟩,
   ⟨2, EpochStatus.completed, "t2", some "t3"⟩,
   ⟨3, EpochStatus.completed, "t3", some "t4"⟩,
   ⟨4, EpochStatus.completed, "t4", some "t5"⟩,
   ⟨5, EpochStatus.running, "t5", none⟩]

/-- Epoch table with a single running epoch. -/
def epsOne : List EpochRow := [⟨1, EpochStatus.running, "t1", none⟩]

/-- A cycle world whose very first step (stdin JSON parsing) raises. -/
def wFail : CycleWorld :=
  { stdinJson := Except.error "Expecting value: line 1 column 1 (char 0)",
    extSupported := true,
    initDatabase := Except.ok (),
    readFile := Except.ok "",
    detected := Except.ok [],
    gatherEvidence := Except.ok (),
    reflect := Except.ok (),
    curateAndPersist := Except.ok 0,
    updatePlaybook := Except.ok () }

/-- Incoming upsert dictionary matching the id of `cxExisting`. -/
def incExisting : IncomingPattern :=
  { id := "py-003", name := "alpha two", domain := "python-error-handling",
    type := "harmful", description := "new text", language := "python",
    observations := 11, successes := 2, failures := 9, neutrals := 0,
    helpful_count := none, harmful_count := none, confidence := 2 / 11,
    last_seen := "2025-01-03T00:00:00", created_at := none }

/-! ## Theorems -/

theorem jaccard_nonneg (s1 s2 : String) : 0 ≤ jaccard s1 s2 := by
  simp only [jaccard]
  split
  · exact le_refl 0
  · positivity

theorem jaccard_le_one (s1 s2 : String) : jaccard s1 s2 ≤ 1 := by
  simp only [jaccard]
  split
  · exact zero_le_one
  · rename_i h
    push_neg at h
    obtain ⟨h1, _⟩ := h
    have hsub : (pySplit s1).toFinset ∩ (pySplit s2).toFinset ⊆
        (pySplit s1).toFinset ∪ (pySplit s2).toFinset :=
      Finset.Subset.trans Finset.inter_subset_left Finset.subset_union_left
    have hcard := Finset.card_le_card hsub
    have hpos : 0 < ((pySplit s1).toFinset ∪ (pySplit s2).toFinset).card := by
      refine Finset.card_pos.mpr ?_
      obtain ⟨x, hx⟩ := Finset.nonempty_iff_ne_empty.mpr h1
      exact ⟨x, Finset.mem_union_left _ hx⟩
    rw [div_le_one (by exact_mod_cast hpos)]
    exact_mod_cast hcard

/-- C4.  For every pair of input patterns, the similarity computation with
every higher tier raising (modelled by the `none` engine outcome) runs the
guaranteed Jaccard fallback tier, terminates by construction, and returns
a score in the closed interval [0, 1]. -/
theorem calculate_similarity_fallback_bounds (p1 p2 : Pattern) :
    0 ≤ calculate_similarity none p1 p2 ∧ calculate_similarity none p1 p2 ≤ 1 := by
  unfold calculate_similarity jaccard_fallback
  constructor
  · have h1 := jaccard_nonneg (strToLower p1.name) (strToLower p2.name)
    have h2 := jaccard_nonneg (strToLower p1.description) (strToLower p2.description)
    nlinarith
  · have h1 := jaccard_le_one (strToLower p1.name) (strToLower p2.name)
    have h2 := jaccard_le_one (strToLower p1.description) (strToLower p2.description)
    have h3 := jaccard_nonneg (strToLower p1.name) (strToLower p2.name)
    have h4 := jaccard_nonneg (strToLower p1.description) (strToLower p2.description)
    nlinarith

/-- C1 counterexample.  Merging one successful observation into a stored
row that carries one unit of helpful feedback stores confidence
`successes / max(observations, 1) = 1/2`, while the canonical invariant
demands `(successes + helpfulFeedback) / max(observations + helpfulFeedback
+ harmfulFeedback, 1) = 2/3`: the invariant does not hold immediately after
this mutation. -/
theorem cycleMerge_breaks_spec_confidence :
    (cycleMergeStore fbTarget fbSource).confidence ≠
      spec_confidence (cycleMergeStore fbTarget fbSource) := by
  have h1 : (cycleMergeStore fbTarget fbSource).confidence = 1 / 2 := by
    simp [cycleMergeStore, merge_patterns, cycle_confidence, fbTarget, fbSource]
  have h2 : spec_confidence (cycleMergeStore fbTarget fbSource) = 2 / 3 := by
    simp [spec_confidence, cycleMergeStore, merge_patterns, fbTarget, fbSource]
    norm_num
  rw [h1, h2]
  norm_num

/-- C1 amended.  The canonical formula holds after the feedback
recalculation pass; the cycle merge and create paths instead store
`successes / max(observations, 1)`, which agrees with the canonical
formula exactly when both feedback counters are zero. -/
theorem confidence_recomputation_characterization :
    (∀ db : List Pattern, ∀ p ∈ recalculate_confidence_scores db,
       p.confidence = spec_confidence p)
    ∧ (∀ t s : Pattern, (cycleMergeStore t s).confidence =
        cycle_confidence (t.successes + s.successes) (t.observations + s.observations))
    ∧ (∀ t s : Pattern, t.helpful_count = 0 → t.harmful_count = 0 →
        (cycleMergeStore t s).confidence = spec_confidence (cycleMergeStore t s))
    ∧ (∀ (now : String) (p : Pattern), p.helpful_count = 0 → p.harmful_count = 0 →
        (cycleCreateStore now p).confidence = spec_confidence (cycleCreateStore now p)) := by
  refine ⟨?_, ?_, ?_, ?_⟩
  · intro db p hp
    simp only [recalculate_confidence_scores, List.mem_map] at hp
    obtain ⟨q, _, rfl⟩ := hp
    rfl
  · intro t s
    rfl
  · intro t s h1 h2
    simp [cycleMergeStore, merge_patterns, cycle_confidence, spec_confidence, h1, h2]
  · intro now p h1 h2
    simp [cycleCreateStore, cycle_confidence, spec_confidence, h1, h2]

/-- C1 witness: the amended statement evaluated at a concrete merge with
zero feedback counters. -/
theorem confidence_recomputation_witness :
    (cycleMergeStore fbNoFb fbSource).confidence =
      spec_confidence (cycleMergeStore fbNoFb fbSource) :=
  confidence_recomputation_characterization.2.2.1 fbNoFb fbSource rfl rfl

/-- C3 counterexample.  When the incoming source record carries an older
`last_seen` than the target, the merged row keeps the source value, not
the most recent of the two. -/
theorem merge_last_seen_not_most_recent :
    (merge_patterns fbTarget fbSource).last_seen ≠
      latestOf fbTarget.last_seen fbSource.last_seen := by
  decide

theorem mergeFold_counts (t : Pattern) (ss : List Pattern) :
    ((ss.foldl merge_patterns t).observations
        = t.observations + (ss.map (fun p => p.observations)).sum)
    ∧ ((ss.foldl merge_patterns t).successes
        = t.successes + (ss.map (fun p => p.successes)).sum)
    ∧ ((ss.foldl merge_patterns t).failures
        = t.failures + (ss.map (fun p => p.failures)).sum)
    ∧ ((ss.foldl merge_patterns t).neutrals
        = t.neutrals + (ss.map (fun p => p.neutrals)).sum) := by
  induction ss generalizing t with
  | nil => simp
  | cons s rest ih =>
    obtain ⟨h1, h2, h3, h4⟩ := ih (merge_patterns t s)
    simp only [merge_patterns] at h1 h2 h3 h4
    simp only [List.foldl_cons, List.map_cons, List.sum_cons]
    refine ⟨?_, ?_, ?_, ?_⟩ <;> simp [merge_patterns, h1, h2, h3, h4] <;> omega

/-- C3 amended.  A merge sums the four count fields component-wise into
the target; iterating merges over any permutation of the same input set
yields the same counts; but `lastSeen` is set to the source value (in the
live path the incoming observation), not computed as the most recent of
the two timestamps. -/
theorem merge_counts_characterization :
    (∀ (t : Pattern) (ss : List Pattern),
       ((ss.foldl merge_patterns t).observations
           = t.observations + (ss.map (fun p => p.observations)).sum)
       ∧ ((ss.foldl merge_patterns t).successes
           = t.successes + (ss.map (fun p => p.successes)).sum)
       ∧ ((ss.foldl merge_patterns t).failures
           = t.failures + (ss.map (fun p => p.failures)).sum)
       ∧ ((ss.foldl merge_patterns t).neutrals
           = t.neutrals + (ss.map (fun p => p.neutrals)).sum))
    ∧ (∀ (t : Pattern) (ss ss2 : List Pattern), ss.Perm ss2 →
       ((ss.foldl merge_patterns t).observations
           = (ss2.foldl merge_patterns t).observations)
       ∧ ((ss.foldl merge_patterns t).successes
           = (ss2.foldl merge_patterns t).successes)
       ∧ ((ss.foldl merge_patterns t).failures
           = (ss2.foldl merge_patterns t).failures)
       ∧ ((ss.foldl merge_patterns t).neutrals
           = (ss2.foldl merge_patterns t).neutrals))
    ∧ (∀ t s : Pattern, (merge_patterns t s).last_seen = s.last_seen) := by
  refine ⟨mergeFold_counts, ?_, ?_⟩
  · intro t ss ss2 hperm
    obtain ⟨a1, a2, a3, a4⟩ := mergeFold_counts t ss
    obtain ⟨b1, b2, b3, b4⟩ := mergeFold_counts t ss2
    refine ⟨?_, ?_, ?_, ?_⟩
    · rw [a1, b1, (hperm.map (fun p => p.observations)).sum_eq]
    · rw [a2, b2, (hperm.map (fun p => p.successes)).sum_eq]
    · rw [a3, b3, (hperm.map (fun p => p.failures)).sum_eq]
    · rw [a4, b4, (hperm.map (fun p => p.neutrals)).sum_eq]
  · intro t s
    rfl

/-- C3 witness: the amended statement evaluated on a concrete two-element
merge set and its transposition. -/
theorem merge_counts_witness :
    (([fbSource, cxExisting] : List Pattern).foldl merge_patterns fbTarget).observations
      = (([cxExisting, fbSource] : List Pattern).foldl merge_patterns fbTarget).observations :=
  (merge_counts_characterization.2.1 fbTarget [fbSource, cxExisting]
    [cxExisting, fbSource] (List.Perm.swap _ _ _)).1

theorem jaccard_eq_zero (s1 s2 : String)
    (h : ((pySplit s1).toFinset ∩ (pySplit s2).toFinset).card = 0) :
    jaccard s1 s2 = 0 := by
  simp only [jaccard]
  split
  · rfl
  · rw [h]
    simp

theorem cx_similarity_zero : calculate_similarity none cxNew cxExisting = 0 := by
  show jaccard_fallback cxNew cxExisting = 0
  unfold jaccard_fallback
  rw [jaccard_eq_zero (strToLower cxNew.name) (strToLower cxExisting.name) (by decide),
    jaccard_eq_zero (strToLower cxNew.description) (strToLower cxExisting.description)
      (by decide)]
  norm_num

theorem cx_bestCandidate :
    bestCandidate (calculate_similarity none) cxNew [cxExisting] = (none, 0) := by
  simp only [bestCandidate, List.foldl]
  rw [if_neg (show ¬ (cxExisting.domain ≠ cxNew.domain) by decide),
    if_neg (show ¬ (cxExisting.type ≠ cxNew.type) by decide)]
  simp only [cx_similarity_zero]
  rw [if_neg (lt_irrefl (0 : ℚ))]

/-- C2 counterexample.  The stored aggregate row for the same pattern id
has 10 observations and confidence 0.20, no merge fires (best similarity
0 < 0.85), so the claimed decision is PRUNE; `curate` instead returns
CREATE, because its prune check reads the ephemeral new-observation record
(1 observation), not the aggregate. -/
theorem curate_ignores_aggregate :
    curate (calculate_similarity none) cxNew [cxExisting] = Decision.create
    ∧ cxExisting.id = cxNew.id
    ∧ 10 ≤ cxExisting.observations
    ∧ cxExisting.confidence < 30 / 100
    ∧ (bestCandidate (calculate_similarity none) cxNew [cxExisting]).2 < 85 / 100 := by
  refine ⟨?_, by decide, by decide, ?_, ?_⟩
  · simp only [curate, cx_bestCandidate]
    rw [if_neg (by simp), if_neg (by decide)]
  · show (2 : ℚ) / 10 < 30 / 100
    norm_num
  · rw [cx_bestCandidate]
    norm_num

/-- C2 amended.  The curator decides PRUNE exactly when no merge fired and
the ephemeral new-observation record itself has at least 10 observations
and confidence below 0.30 (so PRUNE is unreachable on the live per-edit
path, where the record always has 1 observation); the aggregate-level
floor lives in the session-end pass: `prune_low_confidence` deletes
exactly the stored rows with at least 10 observations and confidence
below 0.30, so no aggregate below the floor is deleted there. -/
theorem curate_prune_characterization :
    (∀ (sim : Pattern → Pattern → ℚ) (n : Pattern) (existing : List Pattern),
        curate sim n existing = Decision.prune ↔
          (¬ mergeFired sim n existing ∧ 10 ≤ n.observations ∧ n.confidence < 30 / 100))
    ∧ (∀ (db : List Pattern) (p : Pattern),
        p ∈ prune_low_confidence db ↔
          p ∈ db ∧ ¬ (10 ≤ p.observations ∧ p.confidence < 30 / 100)) := by
  constructor
  · intro sim n existing
    unfold curate mergeFired
    by_cases hm : ((bestCandidate sim n existing).1.isSome = true ∧
        85 / 100 ≤ (bestCandidate sim n existing).2)
    · rw [if_pos hm]
      simp [hm]
    · rw [if_neg hm]
      by_cases hp : (10 ≤ n.observations ∧ n.confidence < 30 / 100)
      · rw [if_pos hp]
        simp [hm, hp]
      · rw [if_neg hp]
        simp [hm, hp]
  · intro db p
    simp only [prune_low_confidence, List.mem_filter, decide_eq_true_eq]

/-- C7 counterexample.  The generator derives the number from a row count,
not from a hash of the pattern id: with `storedP1` stored (id `py-001`,
bullet `[py-00001]`, domain `javascript-x`), a distinct pattern `py-002`
whose domain also does not begin with `py` receives the same bullet id
`[py-00001]`, so bullet ids of distinct patterns are not always distinct. -/
theorem bullet_id_collision :
    generate_bullet_id [] "javascript-x" "py-001" = "[py-00001]"
    ∧ generate_bullet_id [storedP1] "javascript-y" "py-002" = storedP1.bullet_id
    ∧ storedP1.id ≠ "py-002" := by
  decide

/-- C7 amended.  The prefix is the token before the first hyphen of the
pattern id (else the first three characters of the domain); the five digit
number is one plus the count of stored rows whose domain begins with the
prefix (SQLite `LIKE`, ASCII case-insensitive).  In particular the number
depends only on the store and the prefix, never on a hash of the pattern
id, and there is no collision probe. -/
theorem generate_bullet_id_characterization :
    (∀ (db : List Pattern) (d1 id1 d2 id2 : String),
        bulletPfx d1 id1 = bulletPfx d2 id2 →
        generate_bullet_id db d1 id1 = generate_bullet_id db d2 id2)
    ∧ (∀ (domain pid : String), strContains pid "-" = false →
        bulletPfx domain pid = ⟨domain.toList.take 3⟩)
    ∧ (∀ (db : List Pattern) (domain pid : String),
        generate_bullet_id db domain pid =
          "[" ++ bulletPfx domain pid ++ "-" ++
            pad5 ((db.filter (fun p =>
              likeStartsWith (bulletPfx domain pid) p.domain)).length + 1) ++ "]") := by
  refine ⟨?_, ?_, ?_⟩
  · intro db d1 id1 d2 id2 h
    unfold generate_bullet_id
    rw [h]
  · intro domain pid h
    unfold bulletPfx
    simp [h]
  · intro db domain pid
    rfl

/-- C7 witness: two different pattern ids with the same derived prefix get
the same bullet id against the same store. -/
theorem generate_bullet_id_witness :
    generate_bullet_id [storedP1] "javascript-y" "py-002" =
      generate_bullet_id [storedP1] "python-io" "py-007" :=
  generate_bullet_id_characterization.1 [storedP1] "javascript-y" "py-002"
    "python-io" "py-007" (by decide)

/-- C8 counterexample.  With epochs 1..4 completed and epoch 5 running, a
6th start request returns 5 with the cap warning, but the table is byte
for byte unchanged: the force-completion of the running epoch is rolled
back because the connection is closed without commit, so a Running epoch
remains after the call. -/
theorem start_epoch_cap_rolls_back :
    (start_epoch "t6" eps5).1 = eps5
    ∧ (start_epoch "t6" eps5).2.1 = 5
    ∧ (start_epoch "t6" eps5).2.2 = true
    ∧ ((start_epoch "t6" eps5).1.filter
        (fun e => e.status = EpochStatus.running)).length = 1 := by
  decide

theorem completeRunning_filter (now : String) (epochs : List EpochRow) :
    (completeRunning now epochs).filter
      (fun e => e.status = EpochStatus.running) = [] := by
  rw [List.filter_eq_nil_iff]
  intro e he
  simp only [completeRunning, List.mem_map] at he
  obtain ⟨x, _, rfl⟩ := he
  by_cases hx : x.status = EpochStatus.running
  · simp [hx]
  · cases h2 : x.status
    · exact absurd h2 hx
    · simp [hx, h2]

/-- C8 amended.  When `max(existing) + 1 ≤ 5`, `start_epoch` commits the
force-completion, appends a new running row numbered `max(existing) + 1`
and returns it without warning, leaving that new row as the only Running
epoch; when the cap has been reached, the whole transaction is rolled back
(the connection is closed without commit), so no row is created, the
force-completion does not persist, and the call returns the last valid
epoch number with the cap warning. -/
theorem start_epoch_characterization :
    (∀ (now : String) (epochs : List EpochRow), maxEpochNumber epochs + 1 ≤ 5 →
        start_epoch now epochs =
          (completeRunning now epochs ++
            [⟨maxEpochNumber epochs + 1, EpochStatus.running, now, none⟩],
           maxEpochNumber epochs + 1, false)
        ∧ ((start_epoch now epochs).1.filter
            (fun e => e.status = EpochStatus.running)) =
          [⟨maxEpochNumber epochs + 1, EpochStatus.running, now, none⟩])
    ∧ (∀ (now : String) (epochs : List EpochRow), 5 ≤ maxEpochNumber epochs →
        start_epoch now epochs = (epochs, maxEpochNumber epochs, true)) := by
  constructor
  · intro now epochs h
    have he : start_epoch now epochs =
        (completeRunning now epochs ++
          [⟨maxEpochNumber epochs + 1, EpochStatus.running, now, none⟩],
         maxEpochNumber epochs + 1, false) := by
      unfold start_epoch
      rw [if_neg (by omega)]
    refine ⟨he, ?_⟩
    rw [he]
    simp only [List.filter_append, completeRunning_filter, List.nil_append]
    simp
  · intro now epochs h
    unfold start_epoch
    rw [if_pos (by omega)]

/-- C8 witness: the amended statement evaluated at the cap (epochs 1..5
exist, 6th request) and below the cap (a single running epoch). -/
theorem start_epoch_witness :
    start_epoch "t6" eps5 = (eps5, 5, true)
    ∧ start_epoch "t2" epsOne =
      (completeRunning "t2" epsOne ++ [⟨2, EpochStatus.running, "t2", none⟩], 2, false) := by
  constructor
  · rw [start_epoch_characterization.2 "t6" eps5 (by decide)]
    decide
  · rw [(start_epoch_characterization.1 "t2" epsOne (by decide)).1]
    decide

/-- C10.  For an id already present, `store_pattern` runs the UPDATE on
the matching rows: `bullet_id` and `created_at` are not in the SET list
and keep their stored values, while name, domain, type, description,
language, the six counters, confidence and `last_seen` are overwritten;
rows with other ids are untouched.  A bullet id is generated only on the
INSERT branch, taken when no row with the id exists. -/
theorem store_pattern_upsert_frame :
    (∀ (db : List Pattern) (now : String) (p : IncomingPattern),
        (db.find? (fun r => r.id = p.id)).isSome = true →
        store_pattern db now p =
          db.map (fun row => if row.id = p.id then storeUpdateRow p row else row))
    ∧ (∀ (p : IncomingPattern) (row : Pattern),
        (storeUpdateRow p row).bullet_id = row.bullet_id
        ∧ (storeUpdateRow p row).created_at = row.created_at
        ∧ (storeUpdateRow p row).name = p.name
        ∧ (storeUpdateRow p row).domain = p.domain
        ∧ (storeUpdateRow p row).type = p.type
        ∧ (storeUpdateRow p row).description = p.description
        ∧ (storeUpdateRow p row).language = p.language
        ∧ (storeUpdateRow p row).observations = p.observations
        ∧ (storeUpdateRow p row).successes = p.successes
        ∧ (storeUpdateRow p row).failures = p.failures
        ∧ (storeUpdateRow p row).neutrals = p.neutrals
        ∧ (storeUpdateRow p row).helpful_count = p.helpful_count.getD 0
        ∧ (storeUpdateRow p row).harmful_count = p.harmful_count.getD 0
        ∧ (storeUpdateRow p row).confidence = p.confidence
        ∧ (storeUpdateRow p row).last_seen = p.last_seen)
    ∧ (∀ (db : List Pattern) (now : String) (p : IncomingPattern),
        (db.find? (fun r => r.id = p.id)).isSome = false →
        store_pattern db now p = db ++ [storeInsertRow db now p]
        ∧ (storeInsertRow db now p).bullet_id = generate_bullet_id db p.domain p.id) := by
  refine ⟨?_, ?_, ?_⟩
  · intro db now p h
    unfold store_pattern
    rw [if_pos h]
  · intro p row
    refine ⟨rfl, rfl, rfl, rfl, rfl, rfl, rfl, rfl, rfl, rfl, rfl, rfl, rfl, rfl, rfl⟩
  · intro db now p h
    unfold store_pattern
    rw [if_neg (by simp [h])]
    exact ⟨rfl, rfl⟩

/-- C10 witness: upserting over the stored row for the same id keeps its
bullet id and creation timestamp. -/
theorem store_pattern_witness :
    (store_pattern [cxExisting] "t9" incExisting).map (fun r => r.bullet_id) =
      ["[py-00001]"]
    ∧ (store_pattern [cxExisting] "t9" incExisting).map (fun r => r.created_at) =
      ["2025-01-01T00:00:00"] := by
  rw [store_pattern_upsert_frame.1 [cxExisting] "t9" incExisting (by decide)]
  constructor <;> decide

theorem runBody_ok_exitCode (w : CycleWorld) (r : MainResult)
    (h : runBody w = Except.ok r) : r.exitCode = 0 := by
  unfold runBody at h
  repeat' split at h
  all_goals simp_all
  all_goals (cases h; rfl)

/-- C9.  For every cycle world (hence for every combination of internal
step failures), the orchestrator exits with status 0, and whenever the
body raises, the boundary handler emits the continue signal on stdout:
no failure inside the cycle aborts the surrounding workflow with a
non-zero exit. -/
theorem orchestrator_boundary_exit_zero :
    ∀ w : CycleWorld, (pymain w).exitCode = 0
      ∧ (∀ e, runBody w = Except.error e → (pymain w).stdout = [continueSignal]) := by
  intro w
  constructor
  · unfold pymain
    cases h : runBody w with
    | ok r => exact runBody_ok_exitCode w r h
    | error e => rfl
  · intro e he
    unfold pymain
    rw [he]

/-- C9 witness: the boundary evaluated at a world whose stdin parsing
raises. -/
theorem orchestrator_boundary_witness :
    (pymain wFail).exitCode = 0 ∧ (pymain wFail).stdout = [continueSignal] :=
  ⟨(orchestrator_boundary_exit_zero wFail).1,
   (orchestrator_boundary_exit_zero wFail).2
     "Expecting value: line 1 column 1 (char 0)" rfl⟩

/-- C6.  Failing input for the synchronizer idempotence claim: the
document has one managed section with one bullet, the desired content
renders the same section with one additional bullet.  The first run
computes a one-addition delta but `apply_delta` never inserts it, because
the addition path compiles its section pattern from an f-string in which
the intended repetition `{2,3}` is interpolated as the tuple `(2, 3)`
(pattern `^#(2, 3)\s+...`), which matches no real heading.  A second run
with no store change therefore recomputes the same non-empty delta
instead of the empty delta the claim requires (it does perform zero
writes, since nothing ever changes). -/
theorem second_run_delta_not_empty :
    buggySectionMatch "Rules" "## Rules" = false
    ∧ (compute_delta (parse_existing_playbook idemDoc) idemWant).additions.length = 1
    ∧ (update_playbook_with_delta idemDoc idemWant).2 = 0
    ∧ (update_playbook_with_delta idemDoc idemWant).1 = idemDoc
    ∧ (compute_delta (parse_existing_playbook
        (update_playbook_with_delta idemDoc idemWant).1) idemWant).additions.length = 1
    ∧ (update_playbook_with_delta
        (update_playbook_with_delta idemDoc idemWant).1 idemWant).2 = 0 := by
  decide

/-- C5 counterexample.  A delta whose only entry deletes the single bullet
`py-00001` also removes the user preface line (content outside the managed
region, untouched by the diff) because deletions drop every line
containing the bullet id as a substring. -/
theorem delta_deletion_destroys_unrelated_content :
    (compute_delta (parse_existing_playbook frameDoc) frameWant).deletions
      = [⟨"S", "py-00001"⟩]
    ∧ (compute_delta (parse_existing_playbook frameDoc) frameWant).updates = []
    ∧ (compute_delta (parse_existing_playbook frameDoc) frameWant).additions = []
    ∧ frameDoc.head? = some "intro mentions [py-00001] ref"
    ∧ ¬ "intro mentions [py-00001] ref" ∈ (update_playbook_with_delta frameDoc frameWant).1 := by
  decide

theorem filterSub_applyOneUpdate (u : DeltaUpd) (P : String → Bool)
    (h : ∀ l, P l = true →
      (strContains l u.bullet_id && strContains l (pyStrip u.old_line)) = false) :
    ∀ lines : List String,
      List.Sublist (lines.filter P) (((applyOneUpdate u lines).1).filter P) := by
  intro lines
  induction lines with
  | nil => simp [applyOneUpdate]
  | cons l ls ih =>
    by_cases hc : (strContains l u.bullet_id && strContains l (pyStrip u.old_line)) = true
    · have hPl : P l = false := by
        cases hP : P l
        · rfl
        · rw [h l hP] at hc
          exact absurd hc (by simp)
      simp only [applyOneUpdate, hc, if_true]
      rw [List.filter_cons_of_neg (by simp [hPl])]
      by_cases hr : P (l.replace (pyStrip u.old_line) (pyStrip u.new_line)) = true
      · rw [List.filter_cons_of_pos hr]
        exact (List.Sublist.refl _).cons _
      · rw [List.filter_cons_of_neg (by simp [hr])]
    · rw [Bool.not_eq_true] at hc
      simp only [applyOneUpdate, hc, Bool.false_eq_true, if_false]
      by_cases hP : P l = true
      · rw [List.filter_cons_of_pos hP, List.filter_cons_of_pos hP]
        exact ih.cons₂ l
      · rw [List.filter_cons_of_neg (by simp [hP]), List.filter_cons_of_neg (by simp [hP])]
        exact ih

theorem filterSub_applyOneDeletion (d : DeltaDel) (P : String → Bool)
    (h : ∀ l, P l = true → strContains l d.bullet_id = false)
    (lines : List String) :
    List.Sublist (lines.filter P) (((applyOneDeletion d lines).1).filter P) := by
  have heq : ((applyOneDeletion d lines).1).filter P = lines.filter P := by
    induction lines with
    | nil => rfl
    | cons l ls ih =>
      simp only [applyOneDeletion] at ih ⊢
      by_cases hs : strContains l d.bullet_id = true
      · have hPl : P l = false := by
          cases hP : P l
          · rfl
          · rw [h l hP] at hs
            exact absurd hs (by simp)
        rw [List.filter_cons_of_neg (by simp [hs]), ih,
          List.filter_cons_of_neg (by simp [hPl])]
      · rw [List.filter_cons_of_pos (by simp [hs])]
        by_cases hP : P l = true
        · rw [List.filter_cons_of_pos hP, ih, List.filter_cons_of_pos hP]
        · rw [List.filter_cons_of_neg (by simp [hP]), ih,
            List.filter_cons_of_neg (by simp [hP])]
  rw [heq]

theorem filterSub_applyOneAddition (a : DeltaAdd) (P : String → Bool)
    (lines : List String) :
    List.Sublist (lines.filter P) (((applyOneAddition a lines).1).filter P) := by
  unfold applyOneAddition
  cases hf : lines.findIdx? (fun l => buggySectionMatch a.sectionTitle l) with
  | none => exact List.Sublist.refl _
  | some s =>
    simp only [pyInsertAt]
    have h1 : lines.filter P =
        (lines.take (sectionEndIdx lines s)).filter P ++
          (lines.drop (sectionEndIdx lines s)).filter P := by
      rw [← List.filter_append, List.take_append_drop]
    rw [h1, List.filter_append]
    refine List.Sublist.append_left ?_ _
    by_cases hP : P a.new_line = true
    · rw [List.filter_cons_of_pos hP]
      exact (List.Sublist.refl _).cons _
    · rw [List.filter_cons_of_neg (by simp [hP])]

theorem filterSub_fold {β : Type} (step : β → List String → List String × Bool)
    (P : String → Bool) (items : List β)
    (h : ∀ b ∈ items, ∀ l : List String,
      List.Sublist (l.filter P) (((step b l).1).filter P)) :
    ∀ acc : List String × Bool,
      List.Sublist (acc.1.filter P)
        ((items.foldl (fun acc b =>
            let r := step b acc.1
            (r.1, acc.2 || r.2)) acc).1.filter P) := by
  induction items with
  | nil => intro acc; exact List.Sublist.refl _
  | cons b bs ih =>
    intro acc
    simp only [List.foldl_cons]
    exact (h b (List.mem_cons_self b bs) acc.1).trans
      (ih (fun x hx l => h x (List.mem_cons_of_mem b hx) l)
        ⟨(step b acc.1).1, acc.2 || (step b acc.1).2⟩)

theorem filterSub_apply_delta (delta : PlaybookDelta) (P : String → Bool)
    (hu : ∀ u ∈ delta.updates, ∀ l, P l = true →
      (strContains l u.bullet_id && strContains l (pyStrip u.old_line)) = false)
    (hd : ∀ d ∈ delta.deletions, ∀ l, P l = true →
      strContains l d.bullet_id = false)
    (lines : List String) :
    List.Sublist (lines.filter P) (((apply_delta delta lines).1).filter P) := by
  unfold apply_delta
  exact ((filterSub_fold (fun u l => applyOneUpdate u l) P delta.updates
      (fun u h2 l => filterSub_applyOneUpdate u P (hu u h2) l) (lines, false)).trans
    ((filterSub_fold (fun d l => applyOneDeletion d l) P delta.deletions
      (fun d h2 l => filterSub_applyOneDeletion d P (hd d h2) l) _).trans
      (filterSub_fold (fun a l => applyOneAddition a l) P delta.additions
        (fun a _ l => filterSub_applyOneAddition a P l) _)))

/-- C5 amended.  Delta application preserves, in order and byte for byte,
every line that does not contain a deleted id as a substring and does not
contain both an updated id and that update old-line text as substrings:
those lines form a sublist of the resulting document.  (As the
counterexample shows, a line - managed or not - that merely mentions a
deleted bullet id is removed, so the unrestricted claim fails.) -/
theorem apply_delta_preserves_untouched_lines (delta : PlaybookDelta)
    (lines : List String) :
    List.Sublist (lines.filter (untouchedLine delta)) ((apply_delta delta lines).1) := by
  have hu : ∀ u ∈ delta.updates, ∀ l, untouchedLine delta l = true →
      (strContains l u.bullet_id && strContains l (pyStrip u.old_line)) = false := by
    intro u hu2 l hl
    unfold untouchedLine at hl
    simp only [Bool.and_eq_true, List.all_eq_true] at hl
    have h3 := hl.2 u hu2
    rcases (by simpa using h3 : strContains l u.bullet_id = false ∨
        strContains l (pyStrip u.old_line) = false) with h4 | h4 <;> simp [h4]
  have hd : ∀ d ∈ delta.deletions, ∀ l, untouchedLine delta l = true →
      strContains l d.bullet_id = false := by
    intro d hd2 l hl
    unfold untouchedLine at hl
    simp only [Bool.and_eq_true, List.all_eq_true] at hl
    have h3 := hl.1 d hd2
    simpa using h3
  exact (filterSub_apply_delta delta (untouchedLine delta) hu hd lines).trans
    (List.filter_sublist _)
